import Mathlib

/-!
Verification of the US bikeshare data explorer (`bike-share.py`).

The file gives a shallow embedding of the program's pipeline:

* `load_data` — city → CSV lookup, missing-file recovery, derived
  month / weekday / hour fields, and the month/day equality filters;
* `show_stats` — the statistics reporter (modes, sums, means, the
  conditional Birth Year section, the two pie charts);
* `plot_user_type_pie` / `plot_gender_pie` — the chart renderer;
* the button handler of the Streamlit UI, which checks for emptiness
  before invoking `show_stats`.

The data-frame library operations the program calls are embedded with
their library semantics: `Series.mode()` returns the most frequent
values sorted ascending (so `mode()[0]` is the least among ties),
`value_counts()` pairs each distinct value with its frequency sorted by
descending count, and accessing a column absent from the frame raises a
library error.
-/

/-- Full English month name of a 1-based month number, as produced by the
date library's `month_name`. -/
def monthNameOf : Nat → String
  | 1 => "January"
  | 2 => "February"
  | 3 => "March"
  | 4 => "April"
  | 5 => "May"
  | 6 => "June"
  | 7 => "July"
  | 8 => "August"
  | 9 => "September"
  | 10 => "October"
  | 11 => "November"
  | 12 => "December"
  | _ => ""

/-- Full English weekday name of a 0-based weekday number (Monday = 0), as
produced by the date library's `day_name`. -/
def dayNameOf : Nat → String
  | 0 => "Monday"
  | 1 => "Tuesday"
  | 2 => "Wednesday"
  | 3 => "Thursday"
  | 4 => "Friday"
  | 5 => "Saturday"
  | 6 => "Sunday"
  | _ => ""

/-- A parsed start timestamp, reduced to the three components the program
derives from it (`dt.month_name()`, `dt.day_name()`, `dt.hour`). -/
structure Timestamp where
  month : Nat
  weekday : Nat
  hour : Nat
deriving DecidableEq, Repr

/-- One trip record of a city CSV file.  `Start Time`, `Start Station`,
`End Station`, `Trip Duration` and `User Type` are the mandatory columns;
`Gender` and `Birth Year` carry meaningful values only when the owning
frame's presence flag is set.  Trip durations are whole seconds. -/
structure Row where
  startTime : Timestamp
  startStation : String
  endStation : String
  tripDuration : Int
  userType : String
  gender : String
  birthYear : Int
deriving DecidableEq, Repr

/-- A pandas data frame specialised to the bikeshare schema: a row list
plus presence flags for the per-city optional columns (`User Type` is
optional in the sense that `pd.DataFrame()` has no columns at all). -/
structure DataFrame where
  hasUserType : Bool
  hasGender : Bool
  hasBirthYear : Bool
  rows : List Row
deriving DecidableEq, Repr

/-- The column-less empty frame `pd.DataFrame()` returned on a missing file. -/
def emptyDataFrame : DataFrame := ⟨false, false, false, []⟩

/-- Derived `month` column: month name of the start timestamp. -/
def Row.monthName (r : Row) : String := monthNameOf r.startTime.month

/-- Derived `day_of_week` column: weekday name of the start timestamp. -/
def Row.dayName (r : Row) : String := dayNameOf r.startTime.weekday

/-- Derived `hour` column: hour of the start timestamp. -/
def Row.hourOf (r : Row) : Nat := r.startTime.hour

/-- The `CITY_DATA` constant: city name → CSV file path. -/
def CITY_DATA : String → Option String
  | "Chicago" => some "chicago.csv"
  | "New York City" => some "new_york_city.csv"
  | "Washington" => some "washington.csv"
  | _ => none

/-- The `MONTHS` selection list. -/
def MONTHS : List String :=
  ["All", "January", "February", "March", "April", "May", "June"]

/-- The `DAYS` selection list. -/
def DAYS : List String :=
  ["All", "Monday", "Tuesday", "Wednesday", "Thursday", "Friday", "Saturday", "Sunday"]

/-- Result of `load_data`: the returned frame plus whether `st.error`
was shown (the missing-file warning). -/
structure LoadResult where
  df : DataFrame
  fileWarning : Bool
deriving DecidableEq, Repr

/-- The `load_data(city, month, day)` function.  The file system is passed
explicitly as a map from paths to file contents (`none` = file missing,
raising `FileNotFoundError`, which the function catches).  A city outside
`CITY_DATA` raises an uncaught `KeyError`, modelled as `none`. -/
def load_data (fs : String → Option DataFrame) (city month day : String) :
    Option LoadResult :=
  match CITY_DATA city with
  | none => none
  | some path =>
    match fs path with
    | none => some ⟨emptyDataFrame, true⟩
    | some df =>
      let rows1 := if month ≠ "All" then df.rows.filter (fun r => r.monthName == month) else df.rows
      let rows2 := if day ≠ "All" then rows1.filter (fun r => r.dayName == day) else rows1
      some ⟨⟨df.hasUserType, df.hasGender, df.hasBirthYear, rows2⟩, false⟩

/-- Least element of a list (`none` on the empty list). -/
def listMin [LinearOrder α] : List α → Option α
  | [] => none
  | a :: rest =>
    match listMin rest with
    | none => some a
    | some m => some (min a m)

/-- Greatest element of a list (`none` on the empty list). -/
def listMax [LinearOrder α] : List α → Option α
  | [] => none
  | a :: rest =>
    match listMax rest with
    | none => some a
    | some m => some (max a m)

/-- The most frequent values of a series, as returned by `Series.mode()`:
every distinct value whose count is maximal.  (`mode()` returns them in
ascending order; `pandasMode` below takes the `[0]` element, i.e. the
least.) -/
def pandasModes [DecidableEq α] (l : List α) : List α :=
  l.dedup.filter (fun v => l.dedup.all (fun w => decide (l.count w ≤ l.count v)))

/-- The program's `series.mode()[0]`: the least value among those of
maximal frequency. -/
def pandasMode [DecidableEq α] [LinearOrder α] (l : List α) : Option α :=
  listMin (pandasModes l)

/-- `m` is a mode of `l` and, among the tied modes, the least in ascending
value order. -/
def IsLeastMode [DecidableEq α] [LinearOrder α] (l : List α) (m : α) : Prop :=
  m ∈ l ∧ (∀ v ∈ l, l.count v ≤ l.count m) ∧ ∀ v ∈ l, l.count v = l.count m → m ≤ v

/-- Mode of a list with ties broken by the first occurrence in the list.
This follows the specification's description of the tie-break; it is
defined only to compare against `pandasMode`, whose tie-break is ascending
value order. -/
def firstOccurrenceMode [DecidableEq α] (l : List α) : Option α :=
  l.find? (fun v => l.all (fun w => decide (l.count w ≤ l.count v)))

/-- `Series.value_counts()`: each distinct value paired with its frequency,
sorted by descending count. -/
def value_counts [DecidableEq α] (l : List α) : List (α × Nat) :=
  (l.dedup.map (fun v => (v, l.count v))).mergeSort (fun a b => decide (b.2 ≤ a.2))

/-- Two-digit zero-padded decimal string. -/
def pad2 (n : Nat) : String := if n < 10 then "0" ++ toString n else toString n

/-- Round `num / den` to the nearest integer, ties to even (the rounding
used by the host language's fixed-point formatting). -/
def roundHalfEvenNat (num den : Nat) : Nat :=
  let q := num / den
  let r := num % den
  if 2 * r < den then q
  else if den < 2 * r then q + 1
  else if q % 2 = 0 then q else q + 1

/-- The `{:.2%}` format of the fraction `count / total`: the percentage with
two decimal places, e.g. `formatPct 3 4 = "75.00%"`. -/
def formatPct (count total : Nat) : String :=
  let n := roundHalfEvenNat (count * 10000) total
  toString (n / 100) ++ "." ++ pad2 (n % 100) ++ "%"

/-- A pie-slice label `f"{value}\n{count} ({count / total:.2%})"`. -/
def pieLabel (value : String) (count total : Nat) : String :=
  value ++ "\n" ++ toString count ++ " (" ++ formatPct count total ++ ")"

/-- Insert a comma after every three digits of a reversed digit list.  The
first argument is fuel, called with the list length. -/
def groupDigitsAux : Nat → List Char → List Char
  | _, [] => []
  | 0, ds => ds
  | fuel + 1, ds =>
    if ds.length ≤ 3 then ds else ds.take 3 ++ ',' :: groupDigitsAux fuel (ds.drop 3)

/-- Decimal string of a natural number with thousands separators, e.g.
`natGrouped 1234567 = "1,234,567"`. -/
def natGrouped (n : Nat) : String :=
  let ds := (toString n).toList.reverse
  String.mk (groupDigitsAux ds.length ds).reverse

/-- The `{:,.0f}` format of an integer value: grouped digits, no decimals. -/
def intGrouped (i : Int) : String :=
  (if i < 0 then "-" else "") ++ natGrouped i.natAbs

/-- Round a rational to the nearest integer, ties to even. -/
def roundHalfEvenRat (q : Rat) : Int :=
  let f := q.floor
  let frac := q - (f : Rat)
  if frac < 1 / 2 then f
  else if 1 / 2 < frac then f + 1
  else if f % 2 = 0 then f else f + 1

/-- The `{:,.2f}` format of a rational value: grouped integer digits and
two decimal places, e.g. `ratFixed2 (2512 / 2) = "1,256.00"`. -/
def ratFixed2 (q : Rat) : String :=
  let n := roundHalfEvenRat (q * 100)
  let m := n.natAbs
  (if n < 0 then "-" else "") ++ natGrouped (m / 100) ++ "." ++ pad2 (m % 100)

/-- A rendered pie chart: its title, the `value_counts` entries feeding the
slice sizes, and the slice labels. -/
structure Chart where
  title : String
  entries : List (String × Nat)
  labels : List String
deriving DecidableEq, Repr

/-- Failure of a reporting step. -/
inductive StatsError where
  /-- An exception raised inside the data-frame library, e.g. the `KeyError`
  from `mode()[0]` on an empty series or from accessing a missing column. -/
  | libraryError
  /-- Modelled from the spec: the explicit fail-fast error an implementer
  should raise on an empty view.  The program never produces it. -/
  | emptyDatasetError
deriving DecidableEq, Repr

/-- The `plot_user_type_pie(df)` function: an unguarded access to the
`User Type` column (a library error if absent), then `value_counts` and
the percentage-annotated labels. -/
def plot_user_type_pie (df : DataFrame) : Except StatsError Chart :=
  if df.hasUserType then
    let user_counts := value_counts (df.rows.map Row.userType)
    let total := (user_counts.map Prod.snd).sum
    .ok ⟨"User Type Distribution", user_counts,
         user_counts.map (fun p => pieLabel p.1 p.2 total)⟩
  else .error .libraryError

/-- The `plot_gender_pie(df)` function: guarded by `'Gender' in df.columns`,
returning `None` when the column is absent. -/
def plot_gender_pie (df : DataFrame) : Option Chart :=
  if df.hasGender then
    let gender_counts := value_counts (df.rows.map Row.gender)
    let total := (gender_counts.map Prod.snd).sum
    some ⟨"Gender Distribution", gender_counts,
          gender_counts.map (fun p => pieLabel p.1 p.2 total)⟩
  else none

/-- The program's `series.mode()[0]` step: the least of the most frequent
values, or the library's `KeyError` when the series is empty. -/
def seriesModeAt0 [DecidableEq α] [LinearOrder α] (l : List α) : Except StatsError α :=
  match pandasMode l with
  | some m => .ok m
  | none => .error .libraryError

/-- The Birth Year section of `show_stats`: `(earliest, most recent, most
common)` when the column exists, `none` (the "not available" info message)
otherwise.  On an empty frame with the column present, `int(nan)` raises a
library error. -/
def birthYearReport (df : DataFrame) : Except StatsError (Option (Int × Int × Int)) :=
  if df.hasBirthYear then
    match listMin (df.rows.map Row.birthYear), listMax (df.rows.map Row.birthYear),
          pandasMode (df.rows.map Row.birthYear) with
    | some e, some r, some c => .ok (some (e, r, c))
    | _, _, _ => .error .libraryError
  else .ok none

/-- The combined key of the most-frequent-trip statistic:
`df['Start Station'] + " to " + df['End Station']`. -/
def tripKey (r : Row) : String := r.startStation ++ " to " ++ r.endStation

/-- The values `show_stats` writes to the page. -/
structure Report where
  totalTrips : Nat
  mostCommonMonth : String
  mostCommonDay : String
  mostCommonStartHour : Nat
  mostCommonStartStation : String
  mostCommonEndStation : String
  mostFrequentTrip : String
  totalTravelTime : Int
  totalTravelTimeText : String
  avgTravelTime : Rat
  avgTravelTimeText : String
  birthYear : Option (Int × Int × Int)
  userTypeChart : Chart
  genderChart : Option Chart
deriving DecidableEq, Repr

/-- The `show_stats(df)` function, in the order of the source: time stats,
station stats, duration stats, the conditional Birth Year section, the
User Type pie and the Gender pie.  A library error in any step aborts the
whole report. -/
def show_stats (df : DataFrame) : Except StatsError Report := do
  let mcMonth ← seriesModeAt0 (df.rows.map Row.monthName)
  let mcDay ← seriesModeAt0 (df.rows.map Row.dayName)
  let mcHour ← seriesModeAt0 (df.rows.map Row.hourOf)
  let mcStart ← seriesModeAt0 (df.rows.map Row.startStation)
  let mcEnd ← seriesModeAt0 (df.rows.map Row.endStation)
  let mcTrip ← seriesModeAt0 (df.rows.map tripKey)
  let total := (df.rows.map Row.tripDuration).sum
  let avg : Rat := (total : Rat) / (df.rows.length : Rat)
  let bys ← birthYearReport df
  let utChart ← plot_user_type_pie df
  let gChart := plot_gender_pie df
  pure { totalTrips := df.rows.length
         mostCommonMonth := mcMonth
         mostCommonDay := mcDay
         mostCommonStartHour := mcHour
         mostCommonStartStation := mcStart
         mostCommonEndStation := mcEnd
         mostFrequentTrip := mcTrip
         totalTravelTime := total
         totalTravelTimeText := intGrouped total
         avgTravelTime := avg
         avgTravelTimeText := ratFixed2 avg
         birthYear := bys
         userTypeChart := utChart
         genderChart := gChart }

/-- What the page shows after the "Load and Analyze Data" button fires. -/
inductive UIOutcome where
  /-- `st.warning("No data available for the selected filters.")`; the flag
  records whether `load_data` additionally showed the missing-file error. -/
  | warningNoData (fileError : Bool)
  /-- The statistics section was invoked on the loaded frame. -/
  | statsShown (result : Except StatsError Report)

/-- The button handler of the UI: load, then check `df.empty` before
invoking `show_stats`.  `none` models the uncaught `KeyError` on an
unsupported city name. -/
def clickLoadAndAnalyze (fs : String → Option DataFrame) (city month day : String) :
    Option UIOutcome :=
  match load_data fs city month day with
  | none => none
  | some res =>
    if res.df.rows.isEmpty then some (.warningNoData res.fileWarning)
    else some (.statsShown (show_stats res.df))

/-- Sample trip in June on a Monday, 9:00. -/
def rowA : Row := ⟨⟨6, 0, 9⟩, "Canal St", "State St", 600, "Subscriber", "Male", 1990⟩

/-- Sample trip in June on a Tuesday, 17:00. -/
def rowB : Row := ⟨⟨6, 1, 17⟩, "Canal St", "State St", 1500, "Subscriber", "Female", 1985⟩

/-- Sample trip in May on a Monday, 9:00. -/
def rowC : Row := ⟨⟨5, 0, 9⟩, "Clark St", "State St", 900, "Customer", "Male", 1992⟩

/-- Sample trip in March on a Wednesday, 12:00. -/
def rowD : Row := ⟨⟨3, 2, 12⟩, "Clark St", "Canal St", 1200, "Subscriber", "Male", 1988⟩

/-- A sample Chicago source frame with all columns present. -/
def dfSrcW : DataFrame := ⟨true, true, true, [rowA, rowB, rowC, rowD]⟩

/-- A file system holding only the Chicago file. -/
def fsW : String → Option DataFrame :=
  fun p => if p = "chicago.csv" then some dfSrcW else none

/-- A file system with every file missing. -/
def fsNone : String → Option DataFrame := fun _ => none

/-- A file system agreeing with `fsW` on the Chicago file but different
elsewhere. -/
def fsAlt : String → Option DataFrame :=
  fun p => if p = "chicago.csv" then some dfSrcW else some emptyDataFrame

/-- The most-common-month line of the report, when the report succeeds. -/
def reportedMonth (df : DataFrame) : Option String :=
  (show_stats df).toOption.map Report.mostCommonMonth

/-- A frame whose month column is [March, March, January, January]: the
counts tie, the first-occurring tied value is March, the ascending-least
tied value is January. -/
def dfC3 : DataFrame :=
  ⟨true, false, false,
   [⟨⟨3, 0, 9⟩, "A", "B", 600, "Subscriber", "", 0⟩,
    ⟨⟨3, 1, 10⟩, "A", "B", 600, "Subscriber", "", 0⟩,
    ⟨⟨1, 2, 11⟩, "A", "B", 600, "Subscriber", "", 0⟩,
    ⟨⟨1, 3, 12⟩, "A", "B", 600, "Subscriber", "", 0⟩]⟩

/-- A frame with User Type counts {Subscriber: 3, Customer: 1}. -/
def dfC5 : DataFrame :=
  ⟨true, false, false,
   [⟨⟨6, 0, 9⟩, "A", "B", 600, "Subscriber", "", 0⟩,
    ⟨⟨6, 1, 10⟩, "A", "B", 700, "Subscriber", "", 0⟩,
    ⟨⟨6, 2, 11⟩, "A", "B", 800, "Subscriber", "", 0⟩,
    ⟨⟨6, 3, 12⟩, "A", "B", 900, "Customer", "", 0⟩]⟩

/-- The chart the user-type renderer produces on `dfC5`. -/
def chartC5 : Chart :=
  ⟨"User Type Distribution", [("Subscriber", 3), ("Customer", 1)],
   ["Subscriber\n3 (75.00%)", "Customer\n1 (25.00%)"]⟩

/-- A frame lacking the `User Type` column. -/
def dfNoUT : DataFrame := ⟨false, false, false, [rowA]⟩

/-- A Washington-like frame: no Gender, no Birth Year columns. -/
def dfWash : DataFrame := ⟨true, false, false, [rowA, rowC]⟩

/-- The total-travel-time line of the report, when the report succeeds. -/
def reportedTotalText (df : DataFrame) : Option String :=
  (show_stats df).toOption.map Report.totalTravelTimeText

theorem listMin_isSome [LinearOrder α] (l : List α) (h : l ≠ []) :
    ∃ m, listMin l = some m := by
  cases l with
  | nil => exact absurd rfl h
  | cons a rest =>
    cases hr : listMin rest with
    | none => exact ⟨a, by simp [listMin, hr]⟩
    | some m => exact ⟨min a m, by simp [listMin, hr]⟩

theorem listMax_isSome [LinearOrder α] (l : List α) (h : l ≠ []) :
    ∃ m, listMax l = some m := by
  cases l with
  | nil => exact absurd rfl h
  | cons a rest =>
    cases hr : listMax rest with
    | none => exact ⟨a, by simp [listMax, hr]⟩
    | some m => exact ⟨max a m, by simp [listMax, hr]⟩

theorem listMin_eq_none [LinearOrder α] {l : List α} (h : listMin l = none) :
    l = [] := by
  cases l with
  | nil => rfl
  | cons a rest =>
    rw [listMin] at h
    cases hr : listMin rest <;> simp [hr] at h

theorem listMin_mem [LinearOrder α] {l : List α} {m : α} (h : listMin l = some m) :
    m ∈ l := by
  induction l generalizing m with
  | nil => simp [listMin] at h
  | cons a rest ih =>
    cases hr : listMin rest with
    | none =>
      rw [listMin, hr] at h
      simp at h
      simp [h]
    | some m' =>
      rw [listMin, hr] at h
      simp at h
      rcases min_choice a m' with hc | hc
      · have hma : m = a := by rw [← h, hc]
        simp [hma]
      · have hmm : m = m' := by rw [← h, hc]
        exact List.mem_cons_of_mem a (hmm ▸ ih hr)

theorem listMin_le [LinearOrder α] {l : List α} {m : α} (h : listMin l = some m) :
    ∀ v ∈ l, m ≤ v := by
  induction l generalizing m with
  | nil => simp [listMin] at h
  | cons a rest ih =>
    intro v hv
    cases hr : listMin rest with
    | none =>
      have hrest : rest = [] := listMin_eq_none hr
      subst hrest
      simp [listMin] at h
      simp at hv
      rw [hv, ← h]
    | some m' =>
      rw [listMin, hr] at h
      simp at h
      rcases List.mem_cons.mp hv with hva | hvr
      · rw [hva, ← h]
        exact min_le_left a m'
      · calc m = min a m' := h.symm
          _ ≤ m' := min_le_right a m'
          _ ≤ v := ih hr v hvr

theorem exists_count_argmax (f : α → Nat) (l : List α) (h : l ≠ []) :
    ∃ v ∈ l, ∀ w ∈ l, f w ≤ f v := by
  induction l with
  | nil => exact absurd rfl h
  | cons a t ih =>
    cases t with
    | nil => exact ⟨a, by simp⟩
    | cons b u =>
      obtain ⟨v, hv, hmax⟩ := ih (by simp)
      by_cases hc : f v ≤ f a
      · refine ⟨a, by simp, ?_⟩
        intro w hw
        rcases List.mem_cons.mp hw with hwa | hwt
        · simp [hwa]
        · exact le_trans (hmax w hwt) hc
      · refine ⟨v, List.mem_cons_of_mem a hv, ?_⟩
        intro w hw
        rcases List.mem_cons.mp hw with hwa | hwt
        · exact hwa ▸ le_of_not_le hc
        · exact hmax w hwt

theorem mem_pandasModes_iff [DecidableEq α] {l : List α} {v : α} :
    v ∈ pandasModes l ↔ v ∈ l ∧ ∀ w ∈ l, l.count w ≤ l.count v := by
  unfold pandasModes
  rw [List.mem_filter]
  constructor
  · rintro ⟨hmem, hall⟩
    rw [List.all_eq_true] at hall
    refine ⟨List.mem_dedup.mp hmem, fun w hw => ?_⟩
    exact of_decide_eq_true (hall w (List.mem_dedup.mpr hw))
  · rintro ⟨hmem, hall⟩
    refine ⟨List.mem_dedup.mpr hmem, ?_⟩
    rw [List.all_eq_true]
    intro w hw
    exact decide_eq_true (hall w (List.mem_dedup.mp hw))

theorem pandasModes_ne_nil [DecidableEq α] (l : List α) (h : l ≠ []) :
    pandasModes l ≠ [] := by
  obtain ⟨v, hv, hmax⟩ := exists_count_argmax (fun w => l.count w) l h
  have : v ∈ pandasModes l := mem_pandasModes_iff.mpr ⟨hv, hmax⟩
  exact List.ne_nil_of_mem this

theorem pandasMode_isSome [DecidableEq α] [LinearOrder α] (l : List α) (h : l ≠ []) :
    ∃ m, pandasMode l = some m :=
  listMin_isSome _ (pandasModes_ne_nil l h)

theorem pandasMode_isLeastMode [DecidableEq α] [LinearOrder α] {l : List α} {m : α}
    (h : pandasMode l = some m) : IsLeastMode l m := by
  have hmem : m ∈ pandasModes l := listMin_mem h
  obtain ⟨hml, hmax⟩ := mem_pandasModes_iff.mp hmem
  refine ⟨hml, hmax, ?_⟩
  intro v hv hcnt
  have hvmode : v ∈ pandasModes l := by
    refine mem_pandasModes_iff.mpr ⟨hv, fun w hw => ?_⟩
    exact hcnt ▸ hmax w hw
  exact listMin_le h v hvmode

theorem sum_map_add_nat (f g : α → Nat) (l : List α) :
    (l.map (fun x => f x + g x)).sum = (l.map f).sum + (l.map g).sum := by
  induction l with
  | nil => simp
  | cons a t ih => simp [ih]; omega

theorem sum_map_indicator [DecidableEq α] (l : List α) (a : α) :
    (l.map (fun v => if v = a then 1 else 0)).sum = l.count a := by
  induction l with
  | nil => simp
  | cons b t ih =>
    by_cases hba : b = a
    · subst hba
      simp [List.count_cons, ih]
      omega
    · simp [hba, List.count_cons, ih, Ne.symm hba]

theorem sum_counts_dedup [DecidableEq α] (l : List α) :
    (l.dedup.map (fun v => l.count v)).sum = l.length := by
  induction l with
  | nil => simp
  | cons a t ih =>
    have hfun : (fun v => (a :: t).count v) =
        (fun v => t.count v + if v = a then 1 else 0) := by
      funext v
      simp only [List.count_cons]
      rcases eq_or_ne a v with h1 | h1
      · simp [h1]
      · simp [h1, Ne.symm h1]
    have hsplit : ∀ s : List α, (s.map (fun v => (a :: t).count v)).sum =
        (s.map (fun v => t.count v)).sum + (s.map (fun v => if v = a then 1 else 0)).sum := by
      intro s
      rw [hfun, sum_map_add_nat]
    by_cases h : a ∈ t
    · rw [List.dedup_cons_of_mem h, hsplit, ih, sum_map_indicator,
        List.count_dedup]
      simp [h]
    · rw [List.dedup_cons_of_not_mem h]
      simp only [List.map_cons, List.sum_cons]
      rw [hsplit, ih, sum_map_indicator, List.count_dedup, List.count_cons]
      have : t.count a = 0 := List.count_eq_zero.mpr h
      simp [h, this]
      omega

theorem value_counts_sum [DecidableEq α] (l : List α) :
    ((value_counts l).map Prod.snd).sum = l.length := by
  have hperm : (value_counts l).Perm (l.dedup.map fun v => (v, l.count v)) :=
    List.mergeSort_perm _ _
  have := (hperm.map Prod.snd).sum_eq
  rw [this, List.map_map]
  simpa [Function.comp] using sum_counts_dedup l

theorem load_data_mem_iff (fs : String → Option DataFrame) {city path : String}
    (month day : String) {src : DataFrame} {res : LoadResult}
    (hc : CITY_DATA city = some path) (hf : fs path = some src)
    (hres : load_data fs city month day = some res) (r : Row) :
    r ∈ res.df.rows ↔
      r ∈ src.rows ∧ (month ≠ "All" → r.monthName = month) ∧
        (day ≠ "All" → r.dayName = day) := by
  simp only [load_data, hc, hf, Option.some.injEq] at hres
  subst hres
  by_cases hm : month = "All" <;> by_cases hd : day = "All" <;>
    simp [hm, hd, List.mem_filter, and_comm]

theorem show_stats_of_empty (df : DataFrame) (h : df.rows = []) :
    show_stats df = .error .libraryError := by
  obtain ⟨ut, g, b, rows⟩ := df
  simp only at h
  subst h
  rfl

@[simp] theorem exceptBind_ok (a : α) (f : α → Except ε β) :
    (Except.ok a : Except ε α) >>= f = f a := rfl

@[simp] theorem exceptBind_error (e : ε) (f : α → Except ε β) :
    (Except.error e : Except ε α) >>= f = Except.error e := rfl

@[simp] theorem exceptMap_ok (f : α → β) (a : α) :
    f <$> (Except.ok a : Except ε α) = Except.ok (f a) := rfl

theorem map_rows_ne_nil {df : DataFrame} (hne : df.rows ≠ []) (f : Row → α) :
    df.rows.map f ≠ [] := by
  intro h
  exact hne (by simpa using h)

theorem show_stats_ok (df : DataFrame) (hne : df.rows ≠ []) (hut : df.hasUserType = true) :
    ∃ r, show_stats df = .ok r ∧
      pandasMode (df.rows.map Row.monthName) = some r.mostCommonMonth ∧
      pandasMode (df.rows.map Row.dayName) = some r.mostCommonDay ∧
      pandasMode (df.rows.map Row.hourOf) = some r.mostCommonStartHour ∧
      pandasMode (df.rows.map Row.startStation) = some r.mostCommonStartStation ∧
      pandasMode (df.rows.map Row.endStation) = some r.mostCommonEndStation ∧
      pandasMode (df.rows.map tripKey) = some r.mostFrequentTrip ∧
      r.totalTrips = df.rows.length ∧
      r.totalTravelTime = (df.rows.map Row.tripDuration).sum ∧
      r.avgTravelTime = ((df.rows.map Row.tripDuration).sum : Rat) / (df.rows.length : Rat) ∧
      r.totalTravelTimeText = intGrouped r.totalTravelTime ∧
      r.avgTravelTimeText = ratFixed2 r.avgTravelTime ∧
      (df.hasBirthYear = false → r.birthYear = none) ∧
      plot_user_type_pie df = .ok r.userTypeChart ∧
      r.genderChart = plot_gender_pie df := by
  obtain ⟨m1, hm1⟩ := pandasMode_isSome _ (map_rows_ne_nil hne Row.monthName)
  obtain ⟨m2, hm2⟩ := pandasMode_isSome _ (map_rows_ne_nil hne Row.dayName)
  obtain ⟨m3, hm3⟩ := pandasMode_isSome _ (map_rows_ne_nil hne Row.hourOf)
  obtain ⟨m4, hm4⟩ := pandasMode_isSome _ (map_rows_ne_nil hne Row.startStation)
  obtain ⟨m5, hm5⟩ := pandasMode_isSome _ (map_rows_ne_nil hne Row.endStation)
  obtain ⟨m6, hm6⟩ := pandasMode_isSome _ (map_rows_ne_nil hne tripKey)
  obtain ⟨bys, hbys, hbnone⟩ :
      ∃ b, birthYearReport df = .ok b ∧ (df.hasBirthYear = false → b = none) := by
    by_cases hb : df.hasBirthYear
    · obtain ⟨e, he⟩ := listMin_isSome _ (map_rows_ne_nil hne Row.birthYear)
      obtain ⟨x, hx⟩ := listMax_isSome _ (map_rows_ne_nil hne Row.birthYear)
      obtain ⟨c, hcm⟩ := pandasMode_isSome _ (map_rows_ne_nil hne Row.birthYear)
      exact ⟨some (e, x, c), by simp [birthYearReport, hb, he, hx, hcm],
             fun hfalse => by rw [hb] at hfalse; cases hfalse⟩
    · exact ⟨none, by simp [birthYearReport, hb], fun _ => rfl⟩
  have hpie : plot_user_type_pie df =
      .ok ⟨"User Type Distribution", value_counts (df.rows.map Row.userType),
           (value_counts (df.rows.map Row.userType)).map
             (fun p => pieLabel p.1 p.2
               ((value_counts (df.rows.map Row.userType)).map Prod.snd).sum)⟩ := by
    simp [plot_user_type_pie, hut]
  refine ⟨{ totalTrips := df.rows.length
            mostCommonMonth := m1
            mostCommonDay := m2
            mostCommonStartHour := m3
            mostCommonStartStation := m4
            mostCommonEndStation := m5
            mostFrequentTrip := m6
            totalTravelTime := (df.rows.map Row.tripDuration).sum
            totalTravelTimeText := intGrouped ((df.rows.map Row.tripDuration).sum)
            avgTravelTime := ((df.rows.map Row.tripDuration).sum : Rat) / (df.rows.length : Rat)
            avgTravelTimeText :=
              ratFixed2 (((df.rows.map Row.tripDuration).sum : Rat) / (df.rows.length : Rat))
            birthYear := bys
            userTypeChart :=
              ⟨"User Type Distribution", value_counts (df.rows.map Row.userType),
               (value_counts (df.rows.map Row.userType)).map
                 (fun p => pieLabel p.1 p.2
                   ((value_counts (df.rows.map Row.userType)).map Prod.snd).sum)⟩
            genderChart := plot_gender_pie df },
         ?_, hm1, hm2, hm3, hm4, hm5, hm6, rfl, rfl, rfl, rfl, rfl, hbnone, hpie, rfl⟩
  simp only [show_stats, seriesModeAt0, hm1, hm2, hm3, hm4, hm5, hm6, hbys, hpie,
    exceptBind_ok, exceptMap_ok]
  rfl

/-- C1: for every supported city and valid (month, day) pair, the frame
returned by `load_data` holds exactly the source rows whose derived month
matches the request (unless "All") and whose derived weekday matches the
request (unless "All"): a row is in the returned view iff it is a source
row satisfying both equalities. -/
theorem load_data_filter_correct (fs : String → Option DataFrame)
    (city month day path : String) (src : DataFrame) (res : LoadResult)
    (_hmem : month ∈ MONTHS) (_hdem : day ∈ DAYS)
    (hc : CITY_DATA city = some path) (hf : fs path = some src)
    (hres : load_data fs city month day = some res) (r : Row) :
    r ∈ res.df.rows ↔
      r ∈ src.rows ∧ (month ≠ "All" → r.monthName = month) ∧
        (day ≠ "All" → r.dayName = day) :=
  load_data_mem_iff fs month day hc hf hres r

/-- Witness for the filter-correctness theorem at city Chicago, month June,
day Monday and the sample source frame. -/
theorem load_data_filter_correct_witness :
    ("June" ∈ MONTHS ∧ "Monday" ∈ DAYS ∧ CITY_DATA "Chicago" = some "chicago.csv" ∧
      fsW "chicago.csv" = some dfSrcW ∧
      load_data fsW "Chicago" "June" "Monday" = some ⟨⟨true, true, true, [rowA]⟩, false⟩) ∧
    (rowA ∈ (LoadResult.mk ⟨true, true, true, [rowA]⟩ false).df.rows ↔
      rowA ∈ dfSrcW.rows ∧ ("June" ≠ "All" → rowA.monthName = "June") ∧
        ("Monday" ≠ "All" → rowA.dayName = "Monday")) :=
  ⟨⟨by decide, by decide, by decide, by decide, by decide⟩,
   load_data_filter_correct fsW "Chicago" "June" "Monday" "chicago.csv" dfSrcW
     ⟨⟨true, true, true, [rowA]⟩, false⟩ (by decide) (by decide) (by decide) (by decide)
     (by decide) rowA⟩

/-- C2 counterexample: invoked on the empty view, `show_stats` propagates
the underlying library error; it does not fail with the (spec-modelled)
`EmptyDatasetError`. -/
theorem show_stats_empty_not_emptyDatasetError :
    show_stats emptyDataFrame = .error .libraryError ∧
      show_stats emptyDataFrame ≠ .error .emptyDatasetError := by
  refine ⟨show_stats_of_empty emptyDataFrame rfl, ?_⟩
  intro h
  rw [show_stats_of_empty emptyDataFrame rfl] at h
  exact StatsError.noConfusion (Except.error.inj h)

/-- C2 (amended): `show_stats` on an empty view propagates the library
exception (not an `EmptyDatasetError`), and the UI layer checks emptiness
before invoking it: an empty load result gets the warning, and `show_stats`
is invoked exactly on the non-empty ones. -/
theorem empty_view_library_error_and_ui_guard (df : DataFrame) (h : df.rows = []) :
    show_stats df = .error .libraryError ∧
    (∀ fs city month day res, load_data fs city month day = some res →
      res.df.rows = [] →
      clickLoadAndAnalyze fs city month day = some (.warningNoData res.fileWarning)) ∧
    (∀ fs city month day res, load_data fs city month day = some res →
      res.df.rows ≠ [] →
      clickLoadAndAnalyze fs city month day = some (.statsShown (show_stats res.df))) := by
  refine ⟨show_stats_of_empty df h, ?_, ?_⟩
  · intro fs city month day res hres hempty
    simp [clickLoadAndAnalyze, hres, hempty]
  · intro fs city month day res hres hne
    simp [clickLoadAndAnalyze, hres, hne]

/-- Witness for the empty-view theorem: the empty frame itself, and the UI
outcomes on a missing-file load and on the sample Chicago load. -/
theorem empty_view_library_error_and_ui_guard_witness :
    emptyDataFrame.rows = [] ∧
    show_stats emptyDataFrame = .error .libraryError ∧
    clickLoadAndAnalyze fsNone "Chicago" "All" "All" = some (.warningNoData true) ∧
    clickLoadAndAnalyze fsW "Chicago" "All" "All" = some (.statsShown (show_stats dfSrcW)) := by
  refine ⟨rfl, (empty_view_library_error_and_ui_guard emptyDataFrame rfl).1, ?_, ?_⟩
  · exact (empty_view_library_error_and_ui_guard emptyDataFrame rfl).2.1 fsNone
      "Chicago" "All" "All" ⟨emptyDataFrame, true⟩ (by decide) rfl
  · exact (empty_view_library_error_and_ui_guard emptyDataFrame rfl).2.2 fsW
      "Chicago" "All" "All" ⟨dfSrcW, false⟩ (by decide) (by decide)

/-- C4: for a supported city whose file is missing, `load_data` recovers:
it returns the empty frame plus the user-visible warning, and the UI then
skips all statistics and chart stages (the no-data warning is shown). -/
theorem load_data_missing_file (fs : String → Option DataFrame)
    (city month day path : String)
    (hc : CITY_DATA city = some path) (hmiss : fs path = none) :
    load_data fs city month day = some ⟨emptyDataFrame, true⟩ ∧
    clickLoadAndAnalyze fs city month day = some (.warningNoData true) := by
  have h1 : load_data fs city month day = some ⟨emptyDataFrame, true⟩ := by
    simp [load_data, hc, hmiss]
  exact ⟨h1, by simp [clickLoadAndAnalyze, h1, emptyDataFrame]⟩

/-- Witness for the missing-file theorem at Washington with no files. -/
theorem load_data_missing_file_witness :
    (CITY_DATA "Washington" = some "washington.csv" ∧ fsNone "washington.csv" = none) ∧
    (load_data fsNone "Washington" "All" "All" = some ⟨emptyDataFrame, true⟩ ∧
     clickLoadAndAnalyze fsNone "Washington" "All" "All" = some (.warningNoData true)) :=
  ⟨⟨by decide, rfl⟩,
   load_data_missing_file fsNone "Washington" "All" "All" "washington.csv" (by decide) rfl⟩

/-- C9: `load_data` reads only the selected city's file and carries no
state: two invocations with identical arguments against file systems that
agree on that file return identical results. -/
theorem load_data_deterministic (fs fs' : String → Option DataFrame)
    (city month day path : String)
    (hc : CITY_DATA city = some path) (hsame : fs path = fs' path) :
    load_data fs city month day = load_data fs' city month day := by
  simp [load_data, hc, hsame]

/-- Witness for determinism: `fsW` and `fsAlt` agree on the Chicago file. -/
theorem load_data_deterministic_witness :
    (CITY_DATA "Chicago" = some "chicago.csv" ∧ fsW "chicago.csv" = fsAlt "chicago.csv") ∧
    load_data fsW "Chicago" "June" "Monday" = load_data fsAlt "Chicago" "June" "Monday" :=
  ⟨⟨by decide, by decide⟩,
   load_data_deterministic fsW fsAlt "Chicago" "June" "Monday" "chicago.csv"
     (by decide) (by decide)⟩

/-- C10: the user-type chart does not guard column presence: on a view
lacking `User Type` it raises the library error instead of returning the
`Unavailable` value `none` that the gender chart returns on a view lacking
`Gender`; with the column present it succeeds. -/
theorem plot_user_type_pie_unguarded (df : DataFrame) :
    (df.hasUserType = false → plot_user_type_pie df = .error .libraryError) ∧
    (df.hasGender = false → plot_gender_pie df = none) ∧
    (df.hasUserType = true →
      plot_user_type_pie df =
        .ok ⟨"User Type Distribution", value_counts (df.rows.map Row.userType),
             (value_counts (df.rows.map Row.userType)).map
               (fun p => pieLabel p.1 p.2
                 ((value_counts (df.rows.map Row.userType)).map Prod.snd).sum)⟩) := by
  refine ⟨fun h => by simp [plot_user_type_pie, h], fun h => by simp [plot_gender_pie, h],
    fun h => by simp [plot_user_type_pie, h]⟩

/-- Witness for the unguarded user-type chart on a frame lacking the
column. -/
theorem plot_user_type_pie_unguarded_witness :
    (dfNoUT.hasUserType = false ∧ dfNoUT.hasGender = false) ∧
    plot_user_type_pie dfNoUT = .error .libraryError ∧
    plot_gender_pie dfNoUT = none :=
  ⟨⟨rfl, rfl⟩, (plot_user_type_pie_unguarded dfNoUT).1 rfl,
   (plot_user_type_pie_unguarded dfNoUT).2.1 rfl⟩

/-- C3 counterexample: on `dfC3` (month column [March, March, January,
January]) the report's most common month is January, the least tied value
in ascending order, while the first-occurring tied value is March — so the
reported value is not the first-occurring one. -/
theorem mostCommonMonth_not_firstOccurrence :
    reportedMonth dfC3 = some "January" ∧
    firstOccurrenceMode (dfC3.rows.map Row.monthName) = some "March" ∧
    (some "January" : Option String) ≠ some "March" := by
  refine ⟨by with_unfolding_all rfl, by decide, by decide⟩

/-- C3 (amended): each most-common statistic of a non-empty view is the
statistical mode of its field; among tied values the reported one is the
least in the ascending-value order used by the library's tie-break (not
necessarily the first-occurring tied value). -/
theorem show_stats_modes_least (df : DataFrame) (hne : df.rows ≠ [])
    (hut : df.hasUserType = true) :
    ∃ r, show_stats df = .ok r ∧
      IsLeastMode (df.rows.map Row.monthName) r.mostCommonMonth ∧
      IsLeastMode (df.rows.map Row.dayName) r.mostCommonDay ∧
      IsLeastMode (df.rows.map Row.hourOf) r.mostCommonStartHour ∧
      IsLeastMode (df.rows.map Row.startStation) r.mostCommonStartStation ∧
      IsLeastMode (df.rows.map Row.endStation) r.mostCommonEndStation := by
  obtain ⟨r, hss, h1, h2, h3, h4, h5, -⟩ := show_stats_ok df hne hut
  exact ⟨r, hss, pandasMode_isLeastMode h1, pandasMode_isLeastMode h2,
         pandasMode_isLeastMode h3, pandasMode_isLeastMode h4, pandasMode_isLeastMode h5⟩

/-- Witness for the mode theorem on the tied frame `dfC3`. -/
theorem show_stats_modes_least_witness :
    (dfC3.rows ≠ [] ∧ dfC3.hasUserType = true) ∧
    (∃ r, show_stats dfC3 = .ok r ∧
      IsLeastMode (dfC3.rows.map Row.monthName) r.mostCommonMonth ∧
      IsLeastMode (dfC3.rows.map Row.dayName) r.mostCommonDay ∧
      IsLeastMode (dfC3.rows.map Row.hourOf) r.mostCommonStartHour ∧
      IsLeastMode (dfC3.rows.map Row.startStation) r.mostCommonStartStation ∧
      IsLeastMode (dfC3.rows.map Row.endStation) r.mostCommonEndStation) :=
  ⟨⟨by decide, rfl⟩, show_stats_modes_least dfC3 (by decide) rfl⟩

/-- C5: the user-type pie of a view with the column present has slice
sizes summing to the view's row count, and each label combines the
category, its raw count and the two-decimal percentage of `count / total`
(total being that row count). -/
theorem plot_user_type_pie_spec (df : DataFrame) (hut : df.hasUserType = true)
    (_hne : df.rows ≠ []) (c : Chart) (hc : plot_user_type_pie df = .ok c) :
    (c.entries.map Prod.snd).sum = df.rows.length ∧
    c.labels = c.entries.map (fun p => pieLabel p.1 p.2 df.rows.length) := by
  have hsum : ((value_counts (df.rows.map Row.userType)).map Prod.snd).sum =
      df.rows.length := by
    rw [value_counts_sum]
    simp
  simp only [plot_user_type_pie, hut, if_true] at hc
  obtain rfl : c = _ := (Except.ok.inj hc).symm
  exact ⟨hsum, by rw [hsum]⟩

/-- Witness for the pie theorem on the `{Subscriber: 3, Customer: 1}`
frame, with the two labels of the specification's scenario. -/
theorem plot_user_type_pie_spec_witness :
    (dfC5.hasUserType = true ∧ dfC5.rows ≠ [] ∧ plot_user_type_pie dfC5 = .ok chartC5) ∧
    ((chartC5.entries.map Prod.snd).sum = dfC5.rows.length ∧
     chartC5.labels = chartC5.entries.map (fun p => pieLabel p.1 p.2 dfC5.rows.length)) ∧
    chartC5.labels = ["Subscriber\n3 (75.00%)", "Customer\n1 (25.00%)"] :=
  ⟨⟨rfl, by decide, by with_unfolding_all rfl⟩,
   plot_user_type_pie_spec dfC5 rfl (by decide) chartC5 (by with_unfolding_all rfl), by decide⟩

/-- C6: when the optional columns are absent the program treats them as
unavailable, never as an error: the gender chart call returns `none`, and
the report of a non-empty view still succeeds with an unavailable Birth
Year section and an unavailable gender chart. -/
theorem optional_columns_unavailable (df : DataFrame)
    (hg : df.hasGender = false) (hb : df.hasBirthYear = false)
    (hne : df.rows ≠ []) (hut : df.hasUserType = true) :
    plot_gender_pie df = none ∧
    ∃ r, show_stats df = .ok r ∧ r.birthYear = none ∧ r.genderChart = none := by
  have hgp : plot_gender_pie df = none := by simp [plot_gender_pie, hg]
  obtain ⟨r, hss, -, -, -, -, -, -, -, -, -, -, -, hbn, -, hgc⟩ := show_stats_ok df hne hut
  exact ⟨hgp, r, hss, hbn hb, by rw [hgc, hgp]⟩

/-- Witness for the optional-column theorem on the Washington-like frame. -/
theorem optional_columns_unavailable_witness :
    (dfWash.hasGender = false ∧ dfWash.hasBirthYear = false ∧
      dfWash.rows ≠ [] ∧ dfWash.hasUserType = true) ∧
    (plot_gender_pie dfWash = none ∧
     ∃ r, show_stats dfWash = .ok r ∧ r.birthYear = none ∧ r.genderChart = none) :=
  ⟨⟨rfl, rfl, by decide, rfl⟩,
   optional_columns_unavailable dfWash rfl rfl (by decide) rfl⟩

/-- C7: the most frequent trip of a non-empty view is the mode of the
combined key formed by concatenating the start and end station names with
the fixed separator `" to "`. -/
theorem mostFrequentTrip_is_mode (df : DataFrame) (hne : df.rows ≠ [])
    (hut : df.hasUserType = true) :
    ∃ r, show_stats df = .ok r ∧
      pandasMode (df.rows.map (fun row => row.startStation ++ " to " ++ row.endStation)) =
        some r.mostFrequentTrip ∧
      IsLeastMode (df.rows.map (fun row => row.startStation ++ " to " ++ row.endStation))
        r.mostFrequentTrip := by
  obtain ⟨r, hss, -, -, -, -, -, h6, -⟩ := show_stats_ok df hne hut
  exact ⟨r, hss, h6, pandasMode_isLeastMode h6⟩

/-- Witness for the most-frequent-trip theorem on the sample frame. -/
theorem mostFrequentTrip_is_mode_witness :
    (dfSrcW.rows ≠ [] ∧ dfSrcW.hasUserType = true) ∧
    (∃ r, show_stats dfSrcW = .ok r ∧
      pandasMode (dfSrcW.rows.map (fun row => row.startStation ++ " to " ++ row.endStation)) =
        some r.mostFrequentTrip ∧
      IsLeastMode (dfSrcW.rows.map (fun row => row.startStation ++ " to " ++ row.endStation))
        r.mostFrequentTrip) :=
  ⟨⟨by decide, rfl⟩, mostFrequentTrip_is_mode dfSrcW (by decide) rfl⟩

/-- C8: on a non-empty view the duration report satisfies
`sum = mean * count` exactly over the rationals (hence within any
floating-point tolerance); the sum is reported in grouped-digit formatting
and the mean at two-decimal precision. -/
theorem duration_sum_eq_mean_mul_count (df : DataFrame) (hne : df.rows ≠ [])
    (hut : df.hasUserType = true) :
    ∃ r, show_stats df = .ok r ∧
      (r.totalTravelTime : Rat) = r.avgTravelTime * (r.totalTrips : Rat) ∧
      r.totalTravelTimeText = intGrouped r.totalTravelTime ∧
      r.avgTravelTimeText = ratFixed2 r.avgTravelTime := by
  obtain ⟨r, hss, -, -, -, -, -, -, htrips, htot, havg, htt, hat, -⟩ := show_stats_ok df hne hut
  refine ⟨r, hss, ?_, htt, hat⟩
  rw [havg, htot, htrips]
  have hlen0 : df.rows.length ≠ 0 := by
    intro h0
    exact hne (List.length_eq_zero.mp h0)
  have hlen : (df.rows.length : Rat) ≠ 0 := Nat.cast_ne_zero.mpr hlen0
  exact (div_mul_cancel₀ _ hlen).symm

/-- Witness for the duration theorem on the sample frame (durations 600,
1500, 900, 1200: sum 4,200; mean 1,050.00). -/
theorem duration_sum_eq_mean_mul_count_witness :
    (dfSrcW.rows ≠ [] ∧ dfSrcW.hasUserType = true) ∧
    (∃ r, show_stats dfSrcW = .ok r ∧
      (r.totalTravelTime : Rat) = r.avgTravelTime * (r.totalTrips : Rat) ∧
      r.totalTravelTimeText = intGrouped r.totalTravelTime ∧
      r.avgTravelTimeText = ratFixed2 r.avgTravelTime) ∧
    reportedTotalText dfSrcW = some "4,200" :=
  ⟨⟨by decide, rfl⟩, duration_sum_eq_mean_mul_count dfSrcW (by decide) rfl,
   by with_unfolding_all rfl⟩
